import Mathlib

/-!
Verification development for the sitescan-repair PDF extraction core
(`src/backend/pdfParser.js`, with `src/backend/check-position.js` for the
position-aware variant).  The JavaScript source is shallowly embedded over
`List Char`; JavaScript regular expressions are embedded through a small
backtracking matcher (`RExp` / `matchRun`) whose preference order (leftmost
match, greedy/lazy quantifiers, left-biased alternation, capture groups)
mirrors the ECMAScript semantics for the pattern subset the source uses.
JavaScript numbers arising from `parseInt` / `parseFloat` are embedded as
`JSNum` (`nan` or a rational), since the source only ever produces finite
decimal values or `NaN` from digit/dot strings.
-/

/-- JavaScript whitespace test (`\s`), restricted to the ASCII whitespace
characters that can occur in the extracted PDF text. -/
def jsWs (c : Char) : Bool :=
  c = ' ' || c = '\t' || c = '\n' || c = '\r' || c.val = 11 || c.val = 12

/-- `[A-Z]` character class. -/
def isUpperAZ (c : Char) : Bool := 'A' ≤ c && c ≤ 'Z'

/-- `\w` character class (`[A-Za-z0-9_]`). -/
def isWordChar (c : Char) : Bool := c.isAlphanum || c = '_'

/-- Numeric value of a digit list, most significant first (the value
`parseInt` computes on an all-digit string). -/
def digitsToNat (ds : List Char) : Nat :=
  ds.foldl (fun n c => n * 10 + (c.toNat - 48)) 0

/-- A JavaScript number as produced by `parseInt`/`parseFloat` on the
digit/dot strings this parser extracts: either `NaN` or a finite rational. -/
inductive JSNum where
  | nan : JSNum
  | num : ℚ → JSNum
deriving DecidableEq, Repr

/-- JavaScript `parseInt(s, 10)` on strings drawn from `[\d.]+`/`\d+`
captures: parse the leading digit run; `NaN` when there is none. -/
def parseIntJS (cs : List Char) : JSNum :=
  let ds := cs.takeWhile Char.isDigit
  if ds.isEmpty then .nan else .num (digitsToNat ds)

/-- JavaScript `parseFloat(s)` on strings drawn from `[\d.]+` captures:
leading digit run, optionally a dot and a second digit run; `NaN` when no
digit is consumed (e.g. `parseFloat(".")`). -/
def parseFloatJS (cs : List Char) : JSNum :=
  let intDs := cs.takeWhile Char.isDigit
  let rest := cs.drop intDs.length
  match rest with
  | '.' :: rest2 =>
      let fracDs := rest2.takeWhile Char.isDigit
      if intDs.isEmpty && fracDs.isEmpty then .nan
      else .num (mkRat (digitsToNat intDs * 10 ^ fracDs.length + digitsToNat fracDs)
                       (10 ^ fracDs.length))
  | _ => if intDs.isEmpty then .nan else .num (mkRat (digitsToNat intDs) 1)

/-- JavaScript truthiness of a number (`0` and `NaN` are falsy). -/
def jsTruthyNum (x : JSNum) : Bool :=
  match x with
  | .nan => false
  | .num q => q ≠ 0

/-- JavaScript `<` on numbers: false whenever an operand is `NaN`. -/
def jsLt (a b : JSNum) : Bool :=
  match a, b with
  | .num x, .num y => x < y
  | _, _ => false

/-- JavaScript `>` on numbers: false whenever an operand is `NaN`. -/
def jsGt (a b : JSNum) : Bool :=
  match a, b with
  | .num x, .num y => y < x
  | _, _ => false

/-- JavaScript `<=` on numbers: false whenever an operand is `NaN`. -/
def jsLe (a b : JSNum) : Bool :=
  match a, b with
  | .num x, .num y => x ≤ y
  | _, _ => false

/-- JavaScript truthiness of an optional string field (`undefined` and the
empty string are falsy). -/
def jsTruthyStr (s : Option String) : Bool :=
  match s with
  | none => false
  | some v => v ≠ ""

/-- Case-insensitive character comparison, as under a `/i` regex flag. -/
def eqCI (a b : Char) : Bool := a.toLower = b.toLower

/-- Does `pre` occur at the head of `l` (case-sensitive)? -/
def headMatches : List Char → List Char → Bool
  | [], _ => true
  | _ :: _, [] => false
  | p :: ps, c :: cs => p = c && headMatches ps cs

/-- Does `pre` occur at the head of `l`, case-insensitively? -/
def headMatchesCI : List Char → List Char → Bool
  | [], _ => true
  | _ :: _, [] => false
  | p :: ps, c :: cs => eqCI p c && headMatchesCI ps cs

/-- Index of the first (case-sensitive) occurrence of `needle` in `hay`
(JavaScript `hay.indexOf(needle)`, with `none` for `-1`). -/
def idxOfSub (needle : List Char) : List Char → Option Nat
  | [] => if needle.isEmpty then some 0 else none
  | c :: cs =>
      if headMatches needle (c :: cs) then some 0
      else (idxOfSub needle cs).map (· + 1)

/-- Index of the first case-insensitive occurrence of `needle` in `hay`
(JavaScript `hay.search(/needle/i)`, with `none` for `-1`). -/
def idxOfSubCI (needle : List Char) : List Char → Option Nat
  | [] => if needle.isEmpty then some 0 else none
  | c :: cs =>
      if headMatchesCI needle (c :: cs) then some 0
      else (idxOfSubCI needle cs).map (· + 1)

/-- JavaScript `hay.includes(needle)`. -/
def containsSub (needle hay : List Char) : Bool := (idxOfSub needle hay).isSome

/-- JavaScript `String.prototype.trim`. -/
def trimJS (cs : List Char) : List Char :=
  ((cs.dropWhile jsWs).reverse.dropWhile jsWs).reverse

/-- Auxiliary for `splitOnSubCI`, with fuel bounding the scan length. -/
def splitOnSubCIAux (needle : List Char) : Nat → List Char → List Char → List (List Char)
  | 0, acc, rest => [acc.reverse ++ rest]
  | _ + 1, acc, [] => [acc.reverse]
  | fuel + 1, acc, c :: cs =>
      if headMatchesCI needle (c :: cs) then
        acc.reverse :: splitOnSubCIAux needle fuel [] ((c :: cs).drop needle.length)
      else
        splitOnSubCIAux needle fuel (c :: acc) cs

/-- JavaScript `s.split(/needle/i)` for a literal needle: split at every
case-insensitive occurrence, left to right, non-overlapping. -/
def splitOnSubCI (needle hay : List Char) : List (List Char) :=
  splitOnSubCIAux needle (hay.length + 1) [] hay

/-!  ## The regex matcher

`RExp` covers the ECMAScript constructs the source patterns use: character
classes, concatenation, left-biased alternation, greedy and lazy Kleene
star, numbered capture groups and the `$` anchor.  `matchRun` is a plain
backtracking interpreter in continuation-passing style; `fuel` strictly
bounds the recursion depth and is chosen large enough (`matchFuel`) that it
never expires on a match attempt, so the interpreter realises exactly the
backtracking preference order of the ECMAScript algorithm. -/

inductive RExp where
  | eps : RExp
  | cls : (Char → Bool) → RExp
  | cat : RExp → RExp → RExp
  | alt : RExp → RExp → RExp
  | starG : RExp → RExp
  | starL : RExp → RExp
  | grp : Nat → RExp → RExp
  | ends : RExp

/-- Structural size of a pattern, used to compute a sufficient fuel bound. -/
def RExp.size : RExp → Nat
  | .eps => 1
  | .cls _ => 1
  | .cat a b => a.size + b.size + 1
  | .alt a b => a.size + b.size + 1
  | .starG a => a.size + 1
  | .starL a => a.size + 1
  | .grp _ a => a.size + 1
  | .ends => 1

/-- Capture environment: group index paired with the captured characters;
the most recent binding for a group comes first. -/
abbrev Caps := List (Nat × List Char)

/-- Backtracking matcher.  `k` is the success continuation receiving the
remaining input and captures; the first success in preference order wins.
Greedy star tries one more body iteration before stopping; lazy star tries
stopping first.  Star iterations that consume nothing are cut off, matching
the ECMAScript empty-loop rule (all star bodies in this file consume input). -/
def matchRun : Nat → RExp → List Char → Caps →
    (List Char → Caps → Option (List Char × Caps)) → Option (List Char × Caps)
  | 0, _, _, _, _ => none
  | _ + 1, .eps, s, c, k => k s c
  | _ + 1, .ends, s, c, k => if s.isEmpty then k s c else none
  | _ + 1, .cls p, s, c, k =>
      match s with
      | [] => none
      | ch :: rest => if p ch then k rest c else none
  | fuel + 1, .cat a b, s, c, k =>
      matchRun fuel a s c (fun s2 c2 => matchRun fuel b s2 c2 k)
  | fuel + 1, .alt a b, s, c, k =>
      match matchRun fuel a s c k with
      | some r => some r
      | none => matchRun fuel b s c k
  | fuel + 1, .grp i a, s, c, k =>
      matchRun fuel a s c (fun s2 c2 => k s2 ((i, s.take (s.length - s2.length)) :: c2))
  | fuel + 1, .starG a, s, c, k =>
      match matchRun fuel a s c (fun s2 c2 =>
          if s2.length < s.length then matchRun fuel (.starG a) s2 c2 k else none) with
      | some r => some r
      | none => k s c
  | fuel + 1, .starL a, s, c, k =>
      match k s c with
      | some r => some r
      | none =>
          matchRun fuel a s c (fun s2 c2 =>
            if s2.length < s.length then matchRun fuel (.starL a) s2 c2 k else none)

/-- Fuel sufficient for any match attempt of `r` against `s`. -/
def matchFuel (r : RExp) (s : List Char) : Nat :=
  (r.size + 2) * (s.length + 2) + 2

/-- Anchored match attempt at the start of `s`; on success, the captures and
the number of characters consumed (JavaScript `re.exec` when the pattern is
`^`-anchored, or one attempt of the scan loop otherwise). -/
def execAt (r : RExp) (s : List Char) : Option (Caps × Nat) :=
  match matchRun (matchFuel r s) r s [] (fun rest caps => some (rest, caps)) with
  | some (rest, caps) => some (caps, s.length - rest.length)
  | none => none

/-- Leftmost match: try successive start positions (JavaScript
`String.prototype.match` without `/g`).  Returns start index, captures and
match length. -/
def searchIdx (r : RExp) : List Char → Nat → Option (Nat × Caps × Nat)
  | [], i =>
      match execAt r [] with
      | some (caps, n) => some (i, caps, n)
      | none => none
  | ch :: t, i =>
      match execAt r (ch :: t) with
      | some (caps, n) => some (i, caps, n)
      | none => searchIdx r t (i + 1)

/-- Leftmost match of `r` in `s`. -/
def rsearch (r : RExp) (s : List Char) : Option (Nat × Caps × Nat) :=
  searchIdx r s 0

/-- JavaScript `re.test(s)`. -/
def rtest (r : RExp) (s : List Char) : Bool := (rsearch r s).isSome

/-- Look up capture group `i` (most recent binding wins, as in ECMAScript). -/
def getCap (i : Nat) (c : Caps) : Option (List Char) :=
  (c.find? (fun p => p.fst = i)).map Prod.snd

/-- First capture group of the leftmost match (`s.match(re)[1]`). -/
def mcap1 (r : RExp) (s : List Char) : Option (List Char) :=
  (rsearch r s).bind (fun t => getCap 1 t.2.1)

/-- Auxiliary for `matchAllG` with explicit fuel. -/
def matchAllGAux (r : RExp) : Nat → List Char → List Caps
  | 0, _ => []
  | fuel + 1, s =>
      match rsearch r s with
      | none => []
      | some (i, caps, n) => caps :: matchAllGAux r fuel (s.drop (i + max n 1))

/-- JavaScript `s.matchAll(re)` / repeated `re.exec(s)` with the `g` flag:
leftmost matches, continuing after each match (advancing one position past a
zero-length match). -/
def matchAllG (r : RExp) (s : List Char) : List Caps :=
  matchAllGAux r (s.length + 1) s

/-- Auxiliary for `execGlobalML`: scan candidate start positions, which for a
`^`-anchored multiline pattern are the string start and every position
following a newline, at or after the current `lastIndex`. -/
def execMLAux (r : RExp) : Nat → List Char → Bool → List Caps
  | 0, _, _ => []
  | fuel + 1, s, atStart =>
      if atStart then
        match execAt r s with
        | some (caps, n) =>
            if n = 0 then
              match s with
              | [] => [caps]
              | c :: t => caps :: execMLAux r fuel t (c = '\n')
            else
              let nextStart :=
                match (s.take n).getLast? with
                | some ch => ch = '\n'
                | none => atStart
              caps :: execMLAux r fuel (s.drop n) nextStart
        | none =>
            match s with
            | [] => []
            | c :: t => execMLAux r fuel t (c = '\n')
      else
        match s with
        | [] => []
        | c :: t => execMLAux r fuel t (c = '\n')

/-- Repeated `re.exec(s)` for a `^`-anchored pattern with the `gm` flags. -/
def execGlobalML (r : RExp) (s : List Char) : List Caps :=
  execMLAux r (s.length + 1) s true

/-- Literal character pattern. -/
def rchar (c : Char) : RExp := .cls (fun ch => ch = c)

/-- Case-insensitive literal character pattern (under the `/i` flag). -/
def rchari (c : Char) : RExp := .cls (fun ch => eqCI ch c)

/-- Sequencing of a pattern list. -/
def rseq (l : List RExp) : RExp := l.foldr .cat .eps

/-- Literal word pattern. -/
def rlit (w : String) : RExp := rseq (w.data.map rchar)

/-- Case-insensitive literal word pattern. -/
def rliti (w : String) : RExp := rseq (w.data.map rchari)

/-- Greedy `+`. -/
def rplusG (r : RExp) : RExp := .cat r (.starG r)

/-- Lazy `+?`. -/
def rplusL (r : RExp) : RExp := .cat r (.starL r)

/-- Greedy `?`. -/
def roptG (r : RExp) : RExp := .alt r .eps

/-- `\d`. -/
def rD : RExp := .cls Char.isDigit

/-- `\s`. -/
def rWs : RExp := .cls jsWs

/-- `[\r\n]`. -/
def rNl : RExp := .cls (fun c => c = '\r' || c = '\n')

/-- `[A-Z]`. -/
def rUpper : RExp := .cls isUpperAZ

/-- `[\d\-]`. -/
def rDigitDash : RExp := .cls (fun c => c.isDigit || c = '-')

/-- `[\d\-A-Z]`. -/
def rDigitDashUpper : RExp := .cls (fun c => c.isDigit || c = '-' || isUpperAZ c)

/-- `[\d.]`. -/
def rDigitDot : RExp := .cls (fun c => c.isDigit || c = '.')

/-- `[\w\-]`. -/
def rWordDash : RExp := .cls (fun c => isWordChar c || c = '-')

/-- `\w`. -/
def rWord : RExp := .cls isWordChar

/-- `[^\n]`. -/
def rNotNl : RExp := .cls (fun c => c ≠ '\n')

/-- `[\d\s"]`. -/
def rDigitWsQuote : RExp := .cls (fun c => c.isDigit || jsWs c || c = '"')

/-- `\d{1,2}\/\d{1,2}\/\d{4}` (the date shape used throughout the source). -/
def dateCore : RExp :=
  rseq [rD, roptG rD, rchar '/', rD, roptG rD, rchar '/', rD, rD, rD, rD]

/-- `pdfParser.js:74` — `/(\d{2,3}-\d{2}-\d{2}-\d{3}[A-Z]?)/g`, the manhole-ID
anchor pattern (group 0 records the whole match). -/
def mhRe : RExp :=
  .grp 0 (rseq [rD, rD, roptG rD, rchar '-', rD, rD, rchar '-', rD, rD, rchar '-',
                rD, rD, rD, roptG rUpper])

/-- `pdfParser.js:59` — `/\d{2,3}-\d{2}-\d{2}-\d{3}/`, the manhole-ID presence
test for header-line skipping. -/
def hasMHRe : RExp :=
  rseq [rD, rD, roptG rD, rchar '-', rD, rD, rchar '-', rD, rD, rchar '-', rD, rD, rD]

/-- `pdfParser.js:60` — `/\d{1,2}\/\d{1,2}\/\d{4}/`, the date presence test. -/
def dateTestRe : RExp := dateCore

/-- `pdfParser.js:130` — `/^(\d{1,2}\/\d{1,2}\/\d{4})([A-Z]{2,4})([\d.]+)([\d.]+)/`,
the date/material/length/length tail after the downstream manhole ID.
`[A-Z]{2,4}` is expanded greedily (4, then 3, then 2 repetitions). -/
def restRe : RExp :=
  rseq [.grp 1 dateCore,
        .grp 2 (rseq [rUpper, rUpper, roptG (.cat rUpper (roptG rUpper))]),
        .grp 3 (rplusG rDigitDot),
        .grp 4 (rplusG rDigitDot)]

/-- `pdfParser.js:40` — the spaced Section Profile row pattern
`/^\s*(\d+)\s+(\d+)\s+([\d\-]+)\s+([\d\-A-Z]+)\s+(\d{1,2}\/\d{1,2}\/\d{4})\s+([A-Z]+)\s+([\d.]+)\s+([\d.]+)/gm`
(the `^` anchoring is realised by `execGlobalML`). -/
def spacedRe : RExp :=
  rseq [.starG rWs,
        .grp 1 (rplusG rD), rplusG rWs,
        .grp 2 (rplusG rD), rplusG rWs,
        .grp 3 (rplusG rDigitDash), rplusG rWs,
        .grp 4 (rplusG rDigitDashUpper), rplusG rWs,
        .grp 5 dateCore, rplusG rWs,
        .grp 6 (rplusG rUpper), rplusG rWs,
        .grp 7 (rplusG rDigitDot), rplusG rWs,
        .grp 8 (rplusG rDigitDot)]

/-- One row of the Section Profile table (`SectionProfileEntry`). -/
structure Entry where
  no : String
  psr : String
  upstreamMH : String
  downstreamMH : String
  date : String
  material : String
  totalLength : JSNum
  lengthSurveyed : JSNum
deriving DecidableEq, Repr

/-- `pdfParser.js:99-124` — split the digit run preceding the first manhole ID
into sequence number and PSR by run length.  Mirrors the JavaScript
`substring` arithmetic exactly (`null` PSR becomes `none`). -/
def splitNoPsr (ds : List Char) : List Char × Option (List Char) :=
  if ds.length ≤ 3 then (ds, none)
  else if ds.length = 4 then (ds.take 1, some (ds.drop 1))
  else if ds.length = 5 then (ds.take 2, some (ds.drop 2))
  else if ds.length = 6 then (ds.take 3, some (ds.drop 3))
  else if ds.length = 7 then (ds.take (ds.length - 4), some (ds.drop (ds.length - 4)))
  else (ds.take (ds.length - 3), some (ds.drop (ds.length - 3)))

/-- `pdfParser.js:50-157` — processing of one candidate line of the Section
Profile region on the anchor-based path: header/summary skipping, manhole-ID
anchoring, digit-run splitting and tail parsing.  Returns the entry pushed
for this line, if any.  (`line.indexOf` cannot fail on the matched manhole
strings, so the `getD 0` defaults are never exercised.) -/
def anchorLine (line : List Char) : Option Entry :=
  if (trimJS line).isEmpty then none
  else
    let hasHeaderText :=
      containsSub ("No.").data line || containsSub ("PSR").data line ||
      containsSub ("Upstream MH").data line || containsSub ("Downstream MH").data line ||
      containsSub ("Material").data line || containsSub ("Surveyed").data line
    let hasMHPattern := rtest hasMHRe line
    let hasDate := rtest dateTestRe line
    if hasHeaderText && !hasMHPattern && !hasDate then none
    else if containsSub ("Circular =").data line || containsSub ("Total Length (").data line then none
    else
      let mhMatches := (matchAllG mhRe line).filterMap (getCap 0)
      if 2 ≤ mhMatches.length then
        let upstreamMH := mhMatches.getD 0 []
        let downstreamMH := mhMatches.getD 1 []
        let mhStartIdx := (idxOfSub upstreamMH line).getD 0
        let beforeMH := line.take mhStartIdx
        if !beforeMH.isEmpty && beforeMH.all Char.isDigit then
          let allDigits := beforeMH
          let noPsr := splitNoPsr allDigits
          let downIdx := (idxOfSub downstreamMH line).getD 0
          let afterDownstreamMH := line.drop (downIdx + downstreamMH.length)
          match execAt restRe afterDownstreamMH with
          | some (caps, _) =>
              match noPsr.2 with
              | some psr =>
                  if !psr.isEmpty then
                    some { no := String.mk noPsr.1
                           psr := String.mk psr
                           upstreamMH := String.mk upstreamMH
                           downstreamMH := String.mk downstreamMH
                           date := String.mk ((getCap 1 caps).getD [])
                           material := String.mk ((getCap 2 caps).getD [])
                           totalLength := parseFloatJS ((getCap 3 caps).getD [])
                           lengthSurveyed := parseFloatJS ((getCap 4 caps).getD []) }
                  else none
              | none => none
          | none => none
        else none
      else none

/-- `pdfParser.js:162-181` — build one entry from a spaced-pattern match,
subject to the `entry.psr && entry.upstreamMH && entry.downstreamMH`
truthiness guard. -/
def mkSpacedEntry (caps : Caps) : Option Entry :=
  let e : Entry :=
    { no := String.mk ((getCap 1 caps).getD [])
      psr := String.mk ((getCap 2 caps).getD [])
      upstreamMH := String.mk ((getCap 3 caps).getD [])
      downstreamMH := String.mk ((getCap 4 caps).getD [])
      date := String.mk ((getCap 5 caps).getD [])
      material := String.mk ((getCap 6 caps).getD [])
      totalLength := parseFloatJS ((getCap 7 caps).getD [])
      lengthSurveyed := parseFloatJS ((getCap 8 caps).getD []) }
  if e.psr ≠ "" ∧ e.upstreamMH ≠ "" ∧ e.downstreamMH ≠ "" then some e else none

/-- `pdfParser.js:13-24` — `text.match(/Section Profile[\s\S]*?(?=Inspection report|$)/i)`:
the region from the first case-insensitive `Section Profile` up to (not
including) the earliest later case-insensitive `Inspection report`, or to the
end of the text.  (`"Section Profile".length = 15` characters are consumed by
the literal before the lazy loop starts.) -/
def sectionRegion (t : List Char) : Option (List Char) :=
  match idxOfSubCI ("Section Profile").data t with
  | none => none
  | some i =>
      let fromStart := t.drop i
      match idxOfSubCI ("Inspection report").data (fromStart.drop 15) with
      | some j => some (fromStart.take (15 + j))
      | none => some fromStart

/-- `pdfParser.js:45-185` — the pre-deduplication entry list (`psrData`): the
per-line anchor-based pass over the region's lines and, only when that pass
pushed nothing (`matchCount === 0`), the spaced-pattern scan of the whole
region. -/
def rawSectionEntries (t : List Char) : List Entry :=
  match sectionRegion t with
  | none => []
  | some sec =>
      let anchorEntries := ((sec.splitOn '\n').filterMap anchorLine)
      if anchorEntries.isEmpty then (execGlobalML spacedRe sec).filterMap mkSpacedEntry
      else anchorEntries

/-- `pdfParser.js:192` — the deduplication key
`` `${entry.psr}-${entry.upstreamMH}-${entry.downstreamMH}` ``. -/
def entryKey (e : Entry) : String :=
  e.psr ++ "-" ++ e.upstreamMH ++ "-" ++ e.downstreamMH

/-- `pdfParser.js:187-197` — keep the first entry for each seen key. -/
def dedupEntriesAux : List Entry → List String → List Entry
  | [], _ => []
  | e :: rest, seen =>
      if entryKey e ∈ seen then dedupEntriesAux rest seen
      else e :: dedupEntriesAux rest (entryKey e :: seen)

/-- `pdfParser.js:187-197` — deduplicate `psrData` into `uniqueEntries`. -/
def dedupEntries (l : List Entry) : List Entry := dedupEntriesAux l []

/-- `pdfParser.js:6-209` — `extractSectionProfileData`, end to end. -/
def extractSectionProfileData (t : List Char) : List Entry :=
  dedupEntries (rawSectionEntries t)

/-!  ## Inspection report extraction (`pdfParser.js:214-422`) -/

/-- One coded observation row (`pdfParser.js:393-403`). -/
structure Obs where
  distance : JSNum
  code : String
  observation : String
  counter : String
deriving DecidableEq, Repr

/-- One inspection report (`pdfParser.js:222` — the `report` object; absent
fields are `none`). -/
structure Report where
  date : Option String := none
  certificateNumber : Option String := none
  psr : Option String := none
  surveyedBy : Option String := none
  preCleaning : Option String := none
  direction : Option String := none
  upstreamMH : Option String := none
  downstreamMH : Option String := none
  pipeShape : Option String := none
  pipeSize : Option String := none
  pipeMaterial : Option String := none
  sewerUse : Option String := none
  sewerCategory : Option String := none
  jointsPassed : Option JSNum := none
  jointsFailed : Option JSNum := none
  totalGallonsUsed : Option JSNum := none
  totalLength : Option JSNum := none
  lengthSurveyed : Option JSNum := none
  qsr : Option JSNum := none
  qmr : Option JSNum := none
  qor : Option JSNum := none
  spr : Option JSNum := none
  mpr : Option JSNum := none
  opr : Option JSNum := none
  spri : Option JSNum := none
  mpri : Option JSNum := none
  opri : Option JSNum := none
  observations : Option (List Obs) := none
  street : Option String := none
  city : Option String := none
deriving DecidableEq, Repr

/-- `Object.keys(report).length > 0` (`pdfParser.js:416`): some field was
assigned. -/
def Report.hasField (r : Report) : Bool :=
  r.date.isSome || r.certificateNumber.isSome || r.psr.isSome || r.surveyedBy.isSome ||
  r.preCleaning.isSome || r.direction.isSome || r.upstreamMH.isSome || r.downstreamMH.isSome ||
  r.pipeShape.isSome || r.pipeSize.isSome || r.pipeMaterial.isSome || r.sewerUse.isSome ||
  r.sewerCategory.isSome || r.jointsPassed.isSome || r.jointsFailed.isSome ||
  r.totalGallonsUsed.isSome || r.totalLength.isSome || r.lengthSurveyed.isSome ||
  r.qsr.isSome || r.qmr.isSome || r.qor.isSome || r.spr.isSome || r.mpr.isSome ||
  r.opr.isSome || r.spri.isSome || r.mpri.isSome || r.opri.isSome ||
  r.observations.isSome || r.street.isSome || r.city.isSome

/-- `pdfParser.js:251-252` — the two date patterns. -/
def dateRe1 : RExp := rseq [rlit ("Date:"), .starG rWs, .grp 1 dateCore]

/-- Second date pattern `/(\d{1,2}\/\d{1,2}\/\d{4})\s+Cole Swenson/`. -/
def dateRe2 : RExp := rseq [.grp 1 dateCore, rplusG rWs, rlit ("Cole Swenson")]

/-- `/Certificate Number:\s*([\w\-]+)/`. -/
def certRe : RExp := rseq [rlit ("Certificate Number:"), .starG rWs, .grp 1 (rplusG rWordDash)]

/-- `/Pipe\s+Segment\s+Ref\.?:?\s*(\d+)/i`. -/
def psrRe1 : RExp :=
  rseq [rliti ("Pipe"), rplusG rWs, rliti ("Segment"), rplusG rWs, rliti ("Ref"),
        roptG (rchar '.'), roptG (rchar ':'), .starG rWs, .grp 1 (rplusG rD)]

/-- `/PSR\s*:?\s*(\d+)/i`. -/
def psrRe2 : RExp :=
  rseq [rliti ("PSR"), .starG rWs, roptG (rchar ':'), .starG rWs, .grp 1 (rplusG rD)]

/-- `/Ref\.?:?\s*(\d+)/`. -/
def psrRe3 : RExp :=
  rseq [rlit ("Ref"), roptG (rchar '.'), roptG (rchar ':'), .starG rWs, .grp 1 (rplusG rD)]

/-- `/Segment\s+(?:Reference|Ref)\.?:?\s*(\d+)/i`. -/
def psrRe4 : RExp :=
  rseq [rliti ("Segment"), rplusG rWs, .alt (rliti ("Reference")) (rliti ("Ref")),
        roptG (rchar '.'), roptG (rchar ':'), .starG rWs, .grp 1 (rplusG rD)]

/-- `/Surveyed By:\s*([^\n]+)/`. -/
def surveyedByRe : RExp := rseq [rlit ("Surveyed By:"), .starG rWs, .grp 1 (rplusG rNotNl)]

/-- `/Pre-cleaning:\s*([^\n]+?)(?:\s+Direction:|$)/`. -/
def precleaningRe : RExp :=
  rseq [rlit ("Pre-cleaning:"), .starG rWs, .grp 1 (rplusL rNotNl),
        .alt (.cat (rplusG rWs) (rlit ("Direction:"))) .ends]

/-- `/Direction:\s*([^\n]+?)(?:\s+Pipe Joint Length:|$)/`. -/
def directionRe : RExp :=
  rseq [rlit ("Direction:"), .starG rWs, .grp 1 (rplusL rNotNl),
        .alt (.cat (rplusG rWs) (rlit ("Pipe Joint Length:"))) .ends]

/-- `/Upstream MH:\s*([\w\-]+)/`. -/
def upstreamRe : RExp := rseq [rlit ("Upstream MH:"), .starG rWs, .grp 1 (rplusG rWordDash)]

/-- `/Downstream MH:\s*([\w\-]+)/`. -/
def downstreamRe : RExp := rseq [rlit ("Downstream MH:"), .starG rWs, .grp 1 (rplusG rWordDash)]

/-- `/Pipe shape:\s*(\w+)/`. -/
def shapeRe : RExp := rseq [rlit ("Pipe shape:"), .starG rWs, .grp 1 (rplusG rWord)]

/-- `/Pipe size:\s*([\d\s"]+?)(?:\s+Sewer Category:|\s+Purpose:|$)/`. -/
def sizeRe : RExp :=
  rseq [rlit ("Pipe size:"), .starG rWs, .grp 1 (rplusL rDigitWsQuote),
        .alt (.cat (rplusG rWs) (rlit ("Sewer Category:")))
             (.alt (.cat (rplusG rWs) (rlit ("Purpose:"))) .ends)]

/-- `/Pipe material:\s*([^\n]+?)(?:\s+Purpose:|\s+Lining Method:|$)/`. -/
def materialRe : RExp :=
  rseq [rlit ("Pipe material:"), .starG rWs, .grp 1 (rplusL rNotNl),
        .alt (.cat (rplusG rWs) (rlit ("Purpose:")))
             (.alt (.cat (rplusG rWs) (rlit ("Lining Method:"))) .ends)]

/-- `/Sewer Use:\s*([^\n]+?)(?:\s+Total gallons|$)/`. -/
def useRe : RExp :=
  rseq [rlit ("Sewer Use:"), .starG rWs, .grp 1 (rplusL rNotNl),
        .alt (.cat (rplusG rWs) (rlit ("Total gallons"))) .ends]

/-- `/Sewer Category:\s*(\w+)/`. -/
def categoryRe : RExp := rseq [rlit ("Sewer Category:"), .starG rWs, .grp 1 (rplusG rWord)]

/-- `/Joints passed:\s*(\d+)/`. -/
def jointsPassedRe : RExp := rseq [rlit ("Joints passed:"), .starG rWs, .grp 1 (rplusG rD)]

/-- `/Joints failed:\s*(\d+)/`. -/
def jointsFailedRe : RExp := rseq [rlit ("Joints failed:"), .starG rWs, .grp 1 (rplusG rD)]

/-- `/Total gallons used:\s*([\d.]+)/`. -/
def gallonsRe : RExp := rseq [rlit ("Total gallons used:"), .starG rWs, .grp 1 (rplusG rDigitDot)]

/-- `['"]` character class. -/
def rQuote : RExp := .cls (fun c => c = '\'' || c = '"')

/-- `/Total Length:\s*([\d.]+)\s*['"]/`. -/
def totalLengthRe : RExp :=
  rseq [rlit ("Total Length:"), .starG rWs, .grp 1 (rplusG rDigitDot), .starG rWs, rQuote]

/-- `/Length Surveyed:\s*([\d.]+)\s*['"]/`. -/
def surveyedLengthRe : RExp :=
  rseq [rlit ("Length Surveyed:"), .starG rWs, .grp 1 (rplusG rDigitDot), .starG rWs, rQuote]

/-- `pdfParser.js:323-331` — `/LBL\s*:?\s*[\r\n]+\s*(\d+)/i`, the labelled
integer-rating pattern. -/
def labelNumRe (lbl : String) : RExp :=
  rseq [rliti lbl, .starG rWs, roptG (rchar ':'), .starG rWs, rplusG rNl, .starG rWs,
        .grp 1 (rplusG rD)]

/-- `pdfParser.js:326-331` — `/LBL\s*:?\s*[\r\n]+\s*([\d.]+)/i`, the labelled
decimal-rating pattern. -/
def labelDecRe (lbl : String) : RExp :=
  rseq [rliti lbl, .starG rWs, roptG (rchar ':'), .starG rWs, rplusG rNl, .starG rWs,
        .grp 1 (rplusG rDigitDot)]

/-- `pdfParser.js:338` — `/QSRQMR[^\n]*[\r\n]+\s*([\d.]+)/i`, locating the
concatenated ratings value line. -/
def concatRe : RExp :=
  rseq [rliti ("QSRQMR"), .starG rNotNl, rplusG rNl, .starG rWs, .grp 1 (rplusG rDigitDot)]

/-- `pdfParser.js:369/371` — `/QOR[\r\n]+\s*(\d+)/i`. -/
def qorRe2 : RExp := rseq [rliti ("QOR"), rplusG rNl, .starG rWs, .grp 1 (rplusG rD)]

/-- `pdfParser.js:351` — `/\d\.\d/g`, the single-digit-dot-single-digit token
scan over the concatenated decimal run. -/
def decRe : RExp := .grp 0 (rseq [rD, rchar '.', rD])

/-- `pdfParser.js:393` — the observation pattern
`/([\d.]+)\s+([A-Z]+)\s+([^\n]+?)\s+(\d{2}:\d{2}:\d{2})/g`. -/
def obsRe : RExp :=
  .grp 0 (rseq [.grp 1 (rplusG rDigitDot), rplusG rWs,
                .grp 2 (rplusG rUpper), rplusG rWs,
                .grp 3 (rplusL rNotNl), rplusG rWs,
                .grp 4 (rseq [rD, rD, rchar ':', rD, rD, rchar ':', rD, rD])])

/-- `/Street:\s*([^\n]+)/`. -/
def streetRe : RExp := rseq [rlit ("Street:"), .starG rWs, .grp 1 (rplusG rNotNl)]

/-- `/City:\s*([^\n]+)/`. -/
def cityRe : RExp := rseq [rlit ("City:"), .starG rWs, .grp 1 (rplusG rNotNl)]

/-- The eight values recovered from the concatenated ratings value line,
already converted as the source converts them. -/
structure ConcatVals where
  qsr : JSNum
  qmr : JSNum
  spr : JSNum
  mpr : JSNum
  spri : JSNum
  mpri : JSNum
  opri : JSNum
  opr : JSNum
deriving DecidableEq, Repr

/-- `pdfParser.js:342-365` — parse the concatenated ratings value line
(`numbersLine`): first 4 characters as QSR, next 4 as QMR, then the `\d\.\d`
tokens of the remainder assigned in the order SPR, MPR, SPRI, MPRI, OPRI,
OPR; `none` when the `qsr && qmr && decimals && decimals.length >= 6` guard
fails. -/
def parseConcatNumbersLine (numbersLine : List Char) : Option ConcatVals :=
  let qsrS := numbersLine.take 4
  let qmrS := (numbersLine.drop 4).take 4
  let decimalPart := numbersLine.drop 8
  let decimals := (matchAllG decRe decimalPart).filterMap (getCap 0)
  if ¬qsrS.isEmpty ∧ ¬qmrS.isEmpty ∧ 6 ≤ decimals.length then
    some { qsr := parseIntJS qsrS
           qmr := parseIntJS qmrS
           spr := parseFloatJS (decimals.getD 0 [])
           mpr := parseFloatJS (decimals.getD 1 [])
           spri := parseFloatJS (decimals.getD 2 [])
           mpri := parseFloatJS (decimals.getD 3 [])
           opri := parseFloatJS (decimals.getD 4 [])
           opr := parseFloatJS (decimals.getD 5 []) }
  else none

/-- `pdfParser.js:226-248` — the ratings window: own section text plus up to
2000 characters of the next section, truncated at a `Section Pictures`
marker, or 50 characters past a `// Page:` marker. -/
def ratingsWindow (secTxt nextSection : List Char) : List Char :=
  let sectionPicturesIdx := idxOfSubCI ("Section Pictures").data nextSection
  let pageMarkerIdx := idxOfSubCI ("// Page:").data nextSection
  let endIdx :=
    match sectionPicturesIdx with
    | some j =>
        if j < 2000 then j
        else
          match pageMarkerIdx with
          | some k => if k < 2000 then k + 50 else 2000
          | none => 2000
    | none =>
        match pageMarkerIdx with
        | some k => if k < 2000 then k + 50 else 2000
        | none => 2000
  let endIdx2 := min endIdx nextSection.length
  secTxt ++ '\n' :: nextSection.take endIdx2

/-- Trimmed string capture, as in `match[1].trim()`. -/
def capTrim (c : Option (List Char)) : Option String :=
  c.map (fun l => String.mk (trimJS l))

/-- Untrimmed string capture, as in `match[1]`. -/
def capStr (c : Option (List Char)) : Option String :=
  c.map String.mk

/-- `pdfParser.js:220-419` (loop body) — extract one report from its section
text and ratings window. -/
def extractOneReport (secTxt ratingsSection : List Char) : Report :=
  let qsrM := mcap1 (labelNumRe ("QSR")) ratingsSection
  let qmrM := mcap1 (labelNumRe ("QMR")) ratingsSection
  let qorM0 := mcap1 (labelNumRe ("QOR")) ratingsSection
  let sprM := mcap1 (labelDecRe ("SPR")) ratingsSection
  let mprM := mcap1 (labelDecRe ("MPR")) ratingsSection
  let oprM := mcap1 (labelDecRe ("OPR")) ratingsSection
  let spriM := mcap1 (labelDecRe ("SPRI")) ratingsSection
  let mpriM := mcap1 (labelDecRe ("MPRI")) ratingsSection
  let opriM := mcap1 (labelDecRe ("OPRI")) ratingsSection
  -- `pdfParser.js:337-373`: the concatenated fallback is attempted only when
  -- the labelled QSR pattern found nothing, and on the `!qsrMatch` path the
  -- QOR match is recomputed with `qorRe2` (both branches of the inner
  -- conditional assign the same expression).
  let concatVals :=
    if qsrM.isNone then (mcap1 concatRe ratingsSection).bind parseConcatNumbersLine
    else none
  let qorM := if qsrM.isNone then mcap1 qorRe2 ratingsSection else qorM0
  let observations := (matchAllG obsRe secTxt).filterMap (fun caps =>
    match getCap 1 caps, getCap 2 caps, getCap 3 caps, getCap 4 caps with
    | some g1, some g2, some g3, some g4 =>
        some { distance := parseFloatJS g1
               code := String.mk g2
               observation := String.mk (trimJS g3)
               counter := String.mk g4 : Obs }
    | _, _, _, _ => none)
  { date := capStr ((rsearch dateRe1 secTxt).bind (fun t => getCap 1 t.2.1) <|>
                    (rsearch dateRe2 secTxt).bind (fun t => getCap 1 t.2.1))
    certificateNumber := capStr (mcap1 certRe secTxt)
    psr := capStr (mcap1 psrRe1 secTxt <|> mcap1 psrRe2 secTxt <|>
                   mcap1 psrRe3 secTxt <|> mcap1 psrRe4 secTxt)
    surveyedBy := capTrim (mcap1 surveyedByRe secTxt)
    preCleaning := capTrim (mcap1 precleaningRe secTxt)
    direction := capTrim (mcap1 directionRe secTxt)
    upstreamMH := capStr (mcap1 upstreamRe secTxt)
    downstreamMH := capStr (mcap1 downstreamRe secTxt)
    pipeShape := capStr (mcap1 shapeRe secTxt)
    pipeSize := capTrim (mcap1 sizeRe secTxt)
    pipeMaterial := capTrim (mcap1 materialRe secTxt)
    sewerUse := capTrim (mcap1 useRe secTxt)
    sewerCategory := capStr (mcap1 categoryRe secTxt)
    jointsPassed := (mcap1 jointsPassedRe secTxt).map parseIntJS
    jointsFailed := (mcap1 jointsFailedRe secTxt).map parseIntJS
    totalGallonsUsed := (mcap1 gallonsRe secTxt).map parseFloatJS
    totalLength := (mcap1 totalLengthRe secTxt).map parseFloatJS
    lengthSurveyed := (mcap1 surveyedLengthRe secTxt).map parseFloatJS
    qsr := match concatVals with
           | some cv => some cv.qsr
           | none => qsrM.map parseIntJS
    qmr := match concatVals with
           | some cv => some cv.qmr
           | none => qmrM.map parseIntJS
    qor := qorM.map parseIntJS
    spr := match concatVals with
           | some cv => some cv.spr
           | none => sprM.map parseFloatJS
    mpr := match concatVals with
           | some cv => some cv.mpr
           | none => mprM.map parseFloatJS
    opr := match concatVals with
           | some cv => some cv.opr
           | none => oprM.map parseFloatJS
    spri := match concatVals with
            | some cv => some cv.spri
            | none => spriM.map parseFloatJS
    mpri := match concatVals with
            | some cv => some cv.mpri
            | none => mpriM.map parseFloatJS
    opri := match concatVals with
            | some cv => some cv.opri
            | none => opriM.map parseFloatJS
    observations := if observations.isEmpty then none else some observations
    street := capTrim (mcap1 streetRe secTxt)
    city := capTrim (mcap1 cityRe secTxt) }

/-- Auxiliary walk over the split sections: each report sees its own section
and (when present) the next one for the ratings window; reports with no
populated field are discarded. -/
def reportsWalk : List (List Char) → List Report
  | [] => []
  | [sec] =>
      let r := extractOneReport sec sec
      if r.hasField then [r] else []
  | sec :: next :: rest =>
      let r := extractOneReport sec (ratingsWindow sec next)
      (if r.hasField then [r] else []) ++ reportsWalk (next :: rest)

/-- `pdfParser.js:214-422` — `extractInspectionReportData`: split on the
case-insensitive `Inspection report` boundary and process every section
after the first. -/
def extractInspectionReportData (t : List Char) : List Report :=
  reportsWalk (splitOnSubCI ("Inspection report").data t).tail

/-!  ## Cross-referencing and the text-level parse pipeline
(`pdfParser.js:427-490`) -/

/-- `pdfParser.js:448-452` — the profile-match predicate of the first
`find?`: equal manhole pair and, when the report has a (truthy) date, equal
date. -/
def profileMatches (report : Report) (p : Entry) : Bool :=
  report.upstreamMH = some p.upstreamMH ∧ report.downstreamMH = some p.downstreamMH ∧
    (¬jsTruthyStr report.date ∨ report.date = some p.date)

/-- `pdfParser.js:462` — the equal-PSR predicate of the second `find?`. -/
def psrMatches (report : Report) (p : Entry) : Bool :=
  report.psr = some p.psr

/-- `pdfParser.js:446-458` — the PSR backfill step: when the report's `psr`
is falsy and both manhole fields are truthy, copy the PSR of the first
matching profile entry (no change when there is no match). -/
def crossRefPsr (psrData : List Entry) (report : Report) : Report :=
  if ¬jsTruthyStr report.psr ∧ jsTruthyStr report.upstreamMH ∧ jsTruthyStr report.downstreamMH then
    match psrData.find? (profileMatches report) with
    | some p => { report with psr := some p.psr }
    | none => report
  else report

/-- `pdfParser.js:461-466` — the pipe-material backfill step: when the
report's `pipeMaterial` is falsy and its (possibly just backfilled) `psr` is
truthy, copy the material of the first entry with the same PSR, provided
that material is truthy. -/
def crossRefMaterial (psrData : List Entry) (r1 : Report) : Report :=
  if ¬jsTruthyStr r1.pipeMaterial ∧ jsTruthyStr r1.psr then
    match psrData.find? (psrMatches r1) with
    | some p => if p.material ≠ "" then { r1 with pipeMaterial := some p.material } else r1
    | none => r1
  else r1

/-- `pdfParser.js:445-467` — the per-report body of the cross-referencing
`forEach`: the PSR backfill followed by the material backfill (the latter
reads the updated `psr`).  JavaScript truthiness (`undefined`/empty string
falsy) is modelled by `jsTruthyStr`. -/
def crossRefOne (psrData : List Entry) (report : Report) : Report :=
  crossRefMaterial psrData (crossRefPsr psrData report)

/-- `pdfParser.js:445-467` — cross-reference every inspection report against
the Section Profile entries (the entries themselves are read-only here). -/
def crossReference (psrData : List Entry) (reports : List Report) : List Report :=
  reports.map (crossRefOne psrData)

/-- The parse metadata (`pdfParser.js:475-481`).  `totalPages` comes from the
PDF library, outside the text-level pipeline, and is not modelled. -/
structure Metadata where
  totalPSREntries : Nat
  totalInspectionReports : Nat
  totalObservations : Nat
deriving DecidableEq, Repr

/-- The `data` object of a successful parse (`pdfParser.js:472-482`). -/
structure ParsedData where
  sectionProfile : List Entry
  inspectionReports : List Report
  metadata : Metadata
deriving DecidableEq, Repr

/-- The result shape of `parsePDF` (`pdfParser.js:469-489`): success with raw
text and data, or failure with an error message. -/
inductive ParseResult where
  | success (rawText : List Char) (data : ParsedData) : ParseResult
  | failure (errMsg : String) : ParseResult
deriving DecidableEq, Repr

/-- Is the result a success (`result.success === true`)? -/
def ParseResult.isOk : ParseResult → Bool
  | .success _ _ => true
  | .failure _ => false

/-- `pdfParser.js:427-490` — the whole of `parsePDF` from the point the text
has been extracted from the PDF buffer (`const text = data.text` onwards).
The `try/catch` wraps only the `pdf(dataBuffer, ...)` library call, which is
outside the text-level pipeline; the text-processing statements themselves
have no failure path, and in particular there is no emptiness check on
`text`. -/
def parsePDFFromText (text : List Char) : ParseResult :=
  let psrData := extractSectionProfileData text
  let inspectionReports := crossReference psrData (extractInspectionReportData text)
  .success text
    { sectionProfile := psrData
      inspectionReports := inspectionReports
      metadata :=
        { totalPSREntries := psrData.length
          totalInspectionReports := inspectionReports.length
          totalObservations :=
            inspectionReports.foldl (fun sum r => sum + (r.observations.getD []).length) 0 } }

/-- `check-position.js:113-118` — the zero-text guard of the position-aware
parser `parsePDFWithPositioning`: once the positional reconstruction has
produced `rawText`, an empty `rawText` throws (rejecting the parse) before
any extraction is attempted.  Only the guard is modelled; the success branch
of that variant runs its own extractor pair (`check-position.js:155-401`) on
the non-empty text, which this development leaves abstract behind `f`. -/
def positioningGuard (f : List Char → ParsedData) (rawText : List Char) : ParseResult :=
  if rawText.length = 0 then
    .failure ("No text extracted from PDF - pdf2json failed")
  else
    .success rawText (f rawText)

/-!  ## Statistics (`pdfParser.js:495-567`) -/

/-- JavaScript `x || 0` on a number (`pdfParser.js:525`): `0` and `NaN` are
falsy and give the default `0`. -/
def jsOrZero (x : JSNum) : JSNum :=
  if jsTruthyNum x then x else .num 0

/-- `pdfParser.js:524-525` — `stats.longestSegment`: a fold over the whole
list seeded with its head (`Array.prototype.reduce` with an initial value
visits every element), replacing the accumulator when
`p.totalLength > (max?.totalLength || 0)`. -/
def longestSegment : List Entry → Option Entry
  | [] => none
  | e :: rest =>
      some ((e :: rest).foldl
        (fun mx p => if jsGt p.totalLength (jsOrZero mx.totalLength) then p else mx) e)

/-- `pdfParser.js:526-527` — `stats.shortestSegment`: as `longestSegment` but
with `p.totalLength < (min?.totalLength || Infinity)`.  When the
accumulator's length is falsy (`0` or `NaN`) the comparison is against
`Infinity`, which every finite number satisfies — so the condition becomes
`p.totalLength` is not `NaN`. -/
def shortestSegment : List Entry → Option Entry
  | [] => none
  | e :: rest =>
      some ((e :: rest).foldl
        (fun mn p =>
          if (if jsTruthyNum mn.totalLength then jsLt p.totalLength mn.totalLength
              else p.totalLength ≠ .nan) then p else mn) e)

/-- `pdfParser.js:561-567` — `getConditionLabel`.  The thresholds `1.5`,
`2.5`, `3.5`, `4.5` are written `mkRat 3 2`, … so that they stay
kernel-computable. -/
def getConditionLabel (opri : JSNum) : String :=
  if jsLe opri (.num (mkRat 3 2)) then "Excellent"
  else if jsLe opri (.num (mkRat 5 2)) then "Good"
  else if jsLe opri (.num (mkRat 7 2)) then "Fair"
  else if jsLe opri (.num (mkRat 9 2)) then "Poor"
  else "Very Poor"

/-!  ## The spec-ordered Section Profile extraction

The specification (§4.2 step 3) prescribes, for each candidate line, the
spaced-pattern match first and the anchor-based reconstruction only when the
spaced pattern fails on that line.  The following definition is modelled
from those spec words (it is NOT the code's order) so that the two can be
compared. -/

/-- Modelled from the spec: §4.2 step 3 — per candidate line, try the spaced
column pattern on the line first; fall back to the anchor-based
reconstruction when it fails; then deduplicate.  (`anchorLine` already
carries the step-2 header/summary discards, and the spaced attempt is
anchored at the start of the line.) -/
def extractSectionProfileSpecOrdered (t : List Char) : List Entry :=
  match sectionRegion t with
  | none => []
  | some sec =>
      dedupEntries ((sec.splitOn '\n').filterMap (fun line =>
        match execAt spacedRe line with
        | some (caps, _) => mkSpacedEntry caps
        | none => anchorLine line))

/-!  ## Shared helper lemmas -/

set_option maxRecDepth 100000

/-- A string built from a non-empty character list is not the empty string. -/
theorem string_mk_ne_empty {p : List Char} (hp : ¬p.isEmpty = true) : String.mk p ≠ "" := by
  intro hc
  rw [String.ext_iff] at hc
  simp at hc
  simp [hc] at hp

/-- Deduplication only keeps elements of the input list. -/
theorem mem_dedupAux {e : Entry} : ∀ (l : List Entry) (seen : List String),
    e ∈ dedupEntriesAux l seen → e ∈ l := by
  intro l
  induction l with
  | nil => intro seen h; simp [dedupEntriesAux] at h
  | cons x rest ih =>
      intro seen h
      simp only [dedupEntriesAux] at h
      split at h
      · exact List.mem_cons_of_mem _ (ih _ h)
      · rcases List.mem_cons.mp h with h1 | h1
        · exact h1 ▸ List.mem_cons_self _ _
        · exact List.mem_cons_of_mem _ (ih _ h1)

/-- Every kept entry is the first entry of the input carrying its
deduplication key, and its key was not previously seen. -/
theorem dedupAux_first {e : Entry} : ∀ (l : List Entry) (seen : List String),
    e ∈ dedupEntriesAux l seen →
      entryKey e ∉ seen ∧ l.find? (fun x => entryKey x = entryKey e) = some e := by
  intro l
  induction l with
  | nil => intro seen h; simp [dedupEntriesAux] at h
  | cons x rest ih =>
      intro seen h
      simp only [dedupEntriesAux] at h
      split at h
      · rename_i hseen
        obtain ⟨hnot, hfind⟩ := ih _ h
        have hne : entryKey x ≠ entryKey e := fun hk => hnot (hk ▸ hseen)
        refine ⟨hnot, ?_⟩
        rw [List.find?_cons_of_neg _ (by simpa using hne), hfind]
      · rename_i hseen
        rcases List.mem_cons.mp h with h1 | h1
        · subst h1
          exact ⟨hseen, List.find?_cons_of_pos _ (by simp)⟩
        · obtain ⟨hnot, hfind⟩ := ih _ h1
          have hne : entryKey x ≠ entryKey e := by
            intro hk
            exact hnot (hk ▸ List.mem_cons_self _ _)
          refine ⟨fun hc => hnot (List.mem_cons_of_mem _ hc), ?_⟩
          rw [List.find?_cons_of_neg _ (by simpa using hne), hfind]

/-- Deduplicated entries have pairwise distinct deduplication keys. -/
theorem dedupAux_pairwise : ∀ (l : List Entry) (seen : List String),
    (dedupEntriesAux l seen).Pairwise (fun a b => entryKey a ≠ entryKey b) := by
  intro l
  induction l with
  | nil => intro seen; simp [dedupEntriesAux]
  | cons x rest ih =>
      intro seen
      simp only [dedupEntriesAux]
      split
      · exact ih _
      · refine List.Pairwise.cons ?_ (ih _)
        intro b hb
        have := (dedupAux_first _ _ hb).1
        intro hk
        exact this (hk ▸ List.mem_cons_self _ _)

/-- An entry produced by the anchor-based path has a non-empty PSR (pushed
only under the `restMatch && psr` truthiness guard). -/
theorem anchorLine_psr {line : List Char} {e : Entry} (h : anchorLine line = some e) :
    e.psr ≠ "" := by
  simp only [anchorLine] at h
  repeat' first | (split_ifs at h) | (split at h)
  all_goals first
    | exact Option.noConfusion h
    | (obtain rfl := Option.some.inj h
       rename_i hguard
       exact string_mk_ne_empty (by simp_all))

/-- An entry produced by the spaced-pattern path has a non-empty PSR (its
truthiness guard requires it). -/
theorem mkSpacedEntry_psr {caps : Caps} {e : Entry} (h : mkSpacedEntry caps = some e) :
    e.psr ≠ "" := by
  simp only [mkSpacedEntry] at h
  split_ifs at h with hg
  obtain rfl := Option.some.inj h
  exact hg.1

/-- Every pre-deduplication entry has a non-empty PSR. -/
theorem mem_raw_psr {t : List Char} {e : Entry} (h : e ∈ rawSectionEntries t) :
    e.psr ≠ "" := by
  simp only [rawSectionEntries] at h
  split at h
  · simp at h
  · split_ifs at h
    · obtain ⟨caps, _, hc⟩ := List.mem_filterMap.mp h
      exact mkSpacedEntry_psr hc
    · obtain ⟨line, _, hc⟩ := List.mem_filterMap.mp h
      exact anchorLine_psr hc

/-- `parseInt` on a non-empty all-digit string yields its numeric value. -/
theorem parseIntJS_digits {l : List Char} (hl : l.all Char.isDigit = true) (hne : l ≠ []) :
    parseIntJS l = .num (digitsToNat l) := by
  have ht : l.takeWhile Char.isDigit = l :=
    List.takeWhile_eq_self_iff.mpr (by simpa [List.all_eq_true] using hl)
  simp only [parseIntJS, ht]
  rw [if_neg (by simpa using hne)]

/-- The material-backfill step never changes the `psr` field. -/
theorem crossRefMaterial_psr (es : List Entry) (r : Report) :
    (crossRefMaterial es r).psr = r.psr := by
  unfold crossRefMaterial
  split_ifs with h
  · cases hf : es.find? (psrMatches r) with
    | none => rfl
    | some p => simp only []; split_ifs <;> rfl
  · rfl

/-- The PSR-backfill step changes at most the `psr` field. -/
theorem crossRefPsr_shape (es : List Entry) (r : Report) :
    crossRefPsr es r = { r with psr := (crossRefPsr es r).psr } := by
  unfold crossRefPsr
  repeat' first | split_ifs | split | rfl

/-- Cross-referencing one report changes at most `psr` and `pipeMaterial`. -/
theorem crossRefOne_shape (es : List Entry) (r : Report) :
    crossRefOne es r =
      { r with psr := (crossRefOne es r).psr, pipeMaterial := (crossRefOne es r).pipeMaterial } := by
  unfold crossRefOne crossRefMaterial crossRefPsr
  repeat' first | split_ifs | split | rfl

/-- A truthy `psr` is never overwritten by the PSR-backfill step. -/
theorem crossRefPsr_truthy (es : List Entry) (r : Report) (h : jsTruthyStr r.psr = true) :
    crossRefPsr es r = r := by
  unfold crossRefPsr
  rw [if_neg]
  simp [h]

/-- A truthy `pipeMaterial` is never overwritten by the material-backfill
step. -/
theorem crossRefMaterial_truthy (es : List Entry) (r : Report)
    (h : jsTruthyStr r.pipeMaterial = true) : crossRefMaterial es r = r := by
  unfold crossRefMaterial
  rw [if_neg]
  simp [h]

/-- A truthy `psr` survives cross-referencing unchanged. -/
theorem crossRefOne_psr_truthy (es : List Entry) (r : Report)
    (h : jsTruthyStr r.psr = true) : (crossRefOne es r).psr = r.psr := by
  unfold crossRefOne
  rw [crossRefPsr_truthy es r h, crossRefMaterial_psr]

/-- A truthy `pipeMaterial` survives cross-referencing unchanged. -/
theorem crossRefOne_material_truthy (es : List Entry) (r : Report)
    (h : jsTruthyStr r.pipeMaterial = true) :
    (crossRefOne es r).pipeMaterial = r.pipeMaterial := by
  unfold crossRefOne
  have hmat : (crossRefPsr es r).pipeMaterial = r.pipeMaterial := by
    conv_lhs => rw [crossRefPsr_shape es r]
  rw [crossRefMaterial_truthy es _ (by rw [hmat]; exact h), hmat]

/-!  ## Claim theorems -/

/-- C1: on the anchor-based reconstruction path, the leading digit run
before the first manhole ID is split into sequence number and PSR purely by
run length: length ≤ 3 gives a sequence number only with no PSR; length 4
splits 1/3; length 5 splits 2/3; length 6 splits 3/3; length 7 splits
(len−4)/4; length > 7 splits (len−3)/3.  In particular `"1407"` gives
`"1"`/`"407"`, `"82797"` gives `"82"`/`"797"` and `"191642"` gives
`"191"`/`"642"`. -/
theorem C1_length_split_rule :
    (∀ ds : List Char,
      (ds.length ≤ 3 → splitNoPsr ds = (ds, none)) ∧
      (ds.length = 4 → splitNoPsr ds = (ds.take 1, some (ds.drop 1))) ∧
      (ds.length = 5 → splitNoPsr ds = (ds.take 2, some (ds.drop 2))) ∧
      (ds.length = 6 → splitNoPsr ds = (ds.take 3, some (ds.drop 3))) ∧
      (ds.length = 7 → splitNoPsr ds = (ds.take (ds.length - 4), some (ds.drop (ds.length - 4)))) ∧
      (7 < ds.length → splitNoPsr ds = (ds.take (ds.length - 3), some (ds.drop (ds.length - 3))))) ∧
    splitNoPsr ("1407").data = (("1").data, some (("407").data)) ∧
    splitNoPsr ("82797").data = (("82").data, some (("797").data)) ∧
    splitNoPsr ("191642").data = (("191").data, some (("642").data)) := by
  refine ⟨fun ds => ⟨?_, ?_, ?_, ?_, ?_, ?_⟩, by decide, by decide, by decide⟩ <;>
    intro h <;> simp only [splitNoPsr] <;> split_ifs <;> first | rfl | (exfalso; omega)

/-- Witness for C1: the universal rule applied at the concrete length-7 run
`"1234567"`, which splits 3/4. -/
theorem C1_witness : splitNoPsr ("1234567").data = (("123").data, some (("4567").data)) := by
  have h := (C1_length_split_rule.1 (("1234567").data)).2.2.2.2.1 (by decide)
  simpa using h

/-- C2: when the concatenated ratings fallback parses a value line, the
first 4 characters (digits) become `qsr`, the next 4 become `qmr`, and the
`\d.\d` tokens of the remainder are assigned in the order SPR, MPR, SPRI,
MPRI, OPRI, OPR; in particular `"110031001.03.01.03.02.04.0"` yields
qsr = 1100, qmr = 3100, spr = 1.0, mpr = 3.0, spri = 1.0, mpri = 3.0,
opri = 2.0, opr = 4.0. -/
theorem C2_concat_ratings_order :
    (∀ line : List Char,
      (line.take 4).all Char.isDigit = true → (line.take 4).length = 4 →
      ((line.drop 4).take 4).all Char.isDigit = true → ((line.drop 4).take 4).length = 4 →
      6 ≤ ((matchAllG decRe (line.drop 8)).filterMap (getCap 0)).length →
      parseConcatNumbersLine line =
        some { qsr := .num (digitsToNat (line.take 4)),
               qmr := .num (digitsToNat ((line.drop 4).take 4)),
               spr := parseFloatJS (((matchAllG decRe (line.drop 8)).filterMap (getCap 0)).getD 0 []),
               mpr := parseFloatJS (((matchAllG decRe (line.drop 8)).filterMap (getCap 0)).getD 1 []),
               spri := parseFloatJS (((matchAllG decRe (line.drop 8)).filterMap (getCap 0)).getD 2 []),
               mpri := parseFloatJS (((matchAllG decRe (line.drop 8)).filterMap (getCap 0)).getD 3 []),
               opri := parseFloatJS (((matchAllG decRe (line.drop 8)).filterMap (getCap 0)).getD 4 []),
               opr := parseFloatJS (((matchAllG decRe (line.drop 8)).filterMap (getCap 0)).getD 5 []) }) ∧
    parseConcatNumbersLine ("110031001.03.01.03.02.04.0").data =
      some { qsr := .num 1100, qmr := .num 3100, spr := .num 1, mpr := .num 3,
             spri := .num 1, mpri := .num 3, opri := .num 2, opr := .num 4 } := by
  constructor
  · intro line h1 h2 h3 h4 h5
    have hne1 : line.take 4 ≠ [] := by
      intro hc; rw [hc] at h2; simp at h2
    have hne2 : (line.drop 4).take 4 ≠ [] := by
      intro hc; rw [hc] at h4; simp at h4
    simp only [parseConcatNumbersLine]
    rw [if_pos ⟨by simpa using hne1, by simpa using hne2, h5⟩]
    rw [parseIntJS_digits h1 hne1, parseIntJS_digits h3 hne2]
  · decide

/-- Witness for C2: the universal part applied at the concrete value line
`"111122223.14.15.92.65.35.8"`. -/
theorem C2_witness :
    parseConcatNumbersLine ("111122223.14.15.92.65.35.8").data =
      some { qsr := .num (digitsToNat ((("111122223.14.15.92.65.35.8").data).take 4)),
             qmr := .num (digitsToNat (((("111122223.14.15.92.65.35.8").data).drop 4).take 4)),
             spr := parseFloatJS (((matchAllG decRe ((("111122223.14.15.92.65.35.8").data).drop 8)).filterMap (getCap 0)).getD 0 []),
             mpr := parseFloatJS (((matchAllG decRe ((("111122223.14.15.92.65.35.8").data).drop 8)).filterMap (getCap 0)).getD 1 []),
             spri := parseFloatJS (((matchAllG decRe ((("111122223.14.15.92.65.35.8").data).drop 8)).filterMap (getCap 0)).getD 2 []),
             mpri := parseFloatJS (((matchAllG decRe ((("111122223.14.15.92.65.35.8").data).drop 8)).filterMap (getCap 0)).getD 3 []),
             opri := parseFloatJS (((matchAllG decRe ((("111122223.14.15.92.65.35.8").data).drop 8)).filterMap (getCap 0)).getD 4 []),
             opr := parseFloatJS (((matchAllG decRe ((("111122223.14.15.92.65.35.8").data).drop 8)).filterMap (getCap 0)).getD 5 []) } :=
  C2_concat_ratings_order.1 (("111122223.14.15.92.65.35.8").data)
    (by decide) (by decide) (by decide) (by decide) (by decide)

/-- C3: the condition classification returns `"Excellent"` iff the index is
≤ 1.5, `"Good"` iff it is in (1.5, 2.5], `"Fair"` iff in (2.5, 3.5],
`"Poor"` iff in (3.5, 4.5] and `"Very Poor"` iff > 4.5 (bands inclusive on
their upper threshold); in particular 1.5 ↦ Excellent, 1.6 ↦ Good,
2.5 ↦ Good, 2.6 ↦ Fair, 4.5 ↦ Poor, 4.6 ↦ Very Poor.  (`mkRat 3 2` is 1.5,
`mkRat 8 5` is 1.6, and so on.) -/
theorem C3_condition_bands :
    (∀ v : ℚ,
      (getConditionLabel (.num v) = "Excellent" ↔ v ≤ mkRat 3 2) ∧
      (getConditionLabel (.num v) = "Good" ↔ mkRat 3 2 < v ∧ v ≤ mkRat 5 2) ∧
      (getConditionLabel (.num v) = "Fair" ↔ mkRat 5 2 < v ∧ v ≤ mkRat 7 2) ∧
      (getConditionLabel (.num v) = "Poor" ↔ mkRat 7 2 < v ∧ v ≤ mkRat 9 2) ∧
      (getConditionLabel (.num v) = "Very Poor" ↔ mkRat 9 2 < v)) ∧
    getConditionLabel (.num (mkRat 3 2)) = "Excellent" ∧
    getConditionLabel (.num (mkRat 8 5)) = "Good" ∧
    getConditionLabel (.num (mkRat 5 2)) = "Good" ∧
    getConditionLabel (.num (mkRat 13 5)) = "Fair" ∧
    getConditionLabel (.num (mkRat 9 2)) = "Poor" ∧
    getConditionLabel (.num (mkRat 23 5)) = "Very Poor" := by
  refine ⟨?_, by decide, by decide, by decide, by decide, by decide, by decide⟩
  intro v
  have k1 : (mkRat 3 2 : ℚ) < mkRat 5 2 := by decide
  have k2 : (mkRat 5 2 : ℚ) < mkRat 7 2 := by decide
  have k3 : (mkRat 7 2 : ℚ) < mkRat 9 2 := by decide
  simp only [getConditionLabel, jsLe, decide_eq_true_eq]
  split_ifs with h1 h2 h3 h4 <;>
    refine ⟨?_, ?_, ?_, ?_, ?_⟩ <;>
    constructor <;> intro hx <;>
    first
      | rfl
      | (exfalso; revert hx; decide)
      | (obtain ⟨hx1, hx2⟩ := hx; linarith)
      | linarith
      | (constructor <;> linarith)

/-- C5: a report with no PSR whose truthy manhole pair (and date, when the
report has one) matches a Section Profile entry receives the PSR of the
first matching entry (`find?` order); with no matching entry the PSR stays
unset. -/
theorem C5_psr_backfill :
    ∀ (es : List Entry) (r : Report) (u d : String),
      r.psr = none → r.upstreamMH = some u → u ≠ "" → r.downstreamMH = some d → d ≠ "" →
      (∀ p, es.find? (profileMatches r) = some p → (crossRefOne es r).psr = some p.psr) ∧
      (es.find? (profileMatches r) = none → (crossRefOne es r).psr = none) := by
  intro es r u d hpsr hu hune hd hdne
  have hcond : ¬jsTruthyStr r.psr ∧ jsTruthyStr r.upstreamMH ∧ jsTruthyStr r.downstreamMH := by
    simp [jsTruthyStr, hpsr, hu, hd, hune, hdne]
  constructor
  · intro p hp
    rw [crossRefOne, crossRefMaterial_psr, crossRefPsr, if_pos hcond, hp]
  · intro hp
    rw [crossRefOne, crossRefMaterial_psr, crossRefPsr, if_pos hcond, hp, hpsr]

/-- The Section Profile entry of the claim C5 example. -/
def c5entry : Entry :=
  { no := "82", psr := "797", upstreamMH := "138-33-20-028", downstreamMH := "138-33-20-027",
    date := "11/20/2024", material := "VCP", totalLength := .num (mkRat 306 5),
    lengthSurveyed := .num (mkRat 306 5) }

/-- The PSR-less report of the claim C5 example. -/
def c5report : Report :=
  { date := some "11/20/2024", upstreamMH := some "138-33-20-028",
    downstreamMH := some "138-33-20-027" }

/-- Witness for C5: the claim's own example — a report matching the profile
entry (`138-33-20-028`, `138-33-20-027`, `11/20/2024`, PSR `797`) ends with
psr `797`. -/
theorem C5_witness : (crossRefOne [c5entry] c5report).psr = some "797" := by
  have h := (C5_psr_backfill [c5entry] c5report ("138-33-20-028") ("138-33-20-027")
      rfl rfl (by decide) rfl (by decide)).1 c5entry (by decide)
  simpa using h

/-- Section Profile text whose spaced rows make the dash-joined dedup key
collide across different (PSR, upstreamMH, downstreamMH) triples. -/
def c4text : List Char :=
  ("Section Profile\n7 12 1 2-3 1/1/2024 VCP 10.0 10.0\n8 12 1-2 3 1/1/2024 VCP 20.0 20.0\n9 12 1-2 3 1/1/2024 VCP 30.0 30.0").data

/-- First extracted row of `c4text`: triple (12, 1, 2-3). -/
def c4X : Entry :=
  { no := "7", psr := "12", upstreamMH := "1", downstreamMH := "2-3",
    date := "1/1/2024", material := "VCP", totalLength := .num 10, lengthSurveyed := .num 10 }

/-- Second extracted row of `c4text`: triple (12, 1-2, 3), whose dash-joined
key equals that of `c4X`. -/
def c4Y1 : Entry :=
  { no := "8", psr := "12", upstreamMH := "1-2", downstreamMH := "3",
    date := "1/1/2024", material := "VCP", totalLength := .num 20, lengthSurveyed := .num 20 }

/-- Third extracted row of `c4text`: same triple as `c4Y1`. -/
def c4Y2 : Entry :=
  { no := "9", psr := "12", upstreamMH := "1-2", downstreamMH := "3",
    date := "1/1/2024", material := "VCP", totalLength := .num 30, lengthSurveyed := .num 30 }

/-- Counterexample to C4: rows two and three of `c4text` share the triple
(PSR, upstreamMH, downstreamMH) = (12, 1-2, 3), and the claim says the first
of them is the entry kept; but the code deduplicates by the dash-joined
string `psr-up-down`, under which the first row (triple (12, 1, 2-3), a
different triple) has the same key `12-1-2-3` — so both rows with the
shared triple are discarded and only the first row survives. -/
theorem C4_counterexample :
    rawSectionEntries c4text = [c4X, c4Y1, c4Y2] ∧
    extractSectionProfileData c4text = [c4X] ∧
    (c4Y1.psr, c4Y1.upstreamMH, c4Y1.downstreamMH) =
      (c4Y2.psr, c4Y2.upstreamMH, c4Y2.downstreamMH) ∧
    (c4X.psr, c4X.upstreamMH, c4X.downstreamMH) ≠
      (c4Y1.psr, c4Y1.upstreamMH, c4Y1.downstreamMH) ∧
    entryKey c4X = entryKey c4Y1 := by
  refine ⟨by decide, by decide, by decide, by decide, by decide⟩

/-- C4 (amended): deduplication is by the dash-joined string
`psr-upstreamMH-downstreamMH`; the first entry with a given joined key wins
and all later entries with the same joined key are discarded.  Any two
distinct output entries therefore differ in the triple, but distinct
triples whose joins coincide are merged as well, so the first occurrence of
a triple is not always kept. -/
theorem C4_amended_dedup_by_joined_key :
    ∀ t : List Char,
      (extractSectionProfileData t).Pairwise (fun a b =>
        (a.psr, a.upstreamMH, a.downstreamMH) ≠ (b.psr, b.upstreamMH, b.downstreamMH)) ∧
      ∀ e ∈ extractSectionProfileData t,
        (rawSectionEntries t).find? (fun x => entryKey x = entryKey e) = some e := by
  intro t
  constructor
  · refine List.Pairwise.imp ?_ (dedupAux_pairwise (rawSectionEntries t) [])
    intro a b hk hc
    apply hk
    simp only [Prod.mk.injEq] at hc
    obtain ⟨h1, h2, h3⟩ := hc
    simp [entryKey, h1, h2, h3]
  · intro e he
    exact (dedupAux_first _ _ he).2

/-- Witness for C4: the kept entry of `c4text` is the first raw entry with
its joined key. -/
theorem C4_witness :
    (rawSectionEntries c4text).find? (fun x => entryKey x = entryKey c4X) = some c4X :=
  (C4_amended_dedup_by_joined_key c4text).2 c4X (by decide)

/-- Section Profile text with one collapsed (anchor-style) row followed by
one spaced row. -/
def c6text : List Char :=
  ("Section Profile\n82797138-33-20-028138-33-20-02711/20/2024VCP61.2061.20\n1 407 139-33-20-028 139-33-20-027 11/20/2024 VCP 50.00 50.00").data

/-- The anchor-path entry of `c6text` (note `totalLength`/`lengthSurveyed`
come from the greedy split of `61.2061.20` into `61.2061.2` and `0`). -/
def c6A : Entry :=
  { no := "82", psr := "797", upstreamMH := "138-33-20-028", downstreamMH := "138-33-20-027",
    date := "11/20/2024", material := "VCP", totalLength := .num (mkRat 612061 10000),
    lengthSurveyed := .num 0 }

/-- The spaced-pattern entry of the third line of `c6text`. -/
def c6B : Entry :=
  { no := "1", psr := "407", upstreamMH := "139-33-20-028", downstreamMH := "139-33-20-027",
    date := "11/20/2024", material := "VCP", totalLength := .num 50, lengthSurveyed := .num 50 }

/-- Counterexample to C6: the code tries the anchor-based reconstruction
first for every line and runs the spaced regex only when the whole anchor
pass matched nothing; under the claim's order (spaced first per line,
anchor as per-line fallback) the spaced third line of `c6text` would also
yield an entry.  The code's output drops that row entirely. -/
theorem C6_counterexample :
    extractSectionProfileData c6text = [c6A] ∧
    extractSectionProfileSpecOrdered c6text = [c6A, c6B] ∧
    extractSectionProfileData c6text ≠ extractSectionProfileSpecOrdered c6text := by
  refine ⟨by decide, by decide, by decide⟩

/-- C6 (amended): for each candidate line the anchor-based reconstruction is
attempted first; the spaced-pattern regex is applied (to the whole region)
only when the anchor pass over all lines produced no entry. -/
theorem C6_amended_anchor_first :
    ∀ (t sec : List Char), sectionRegion t = some sec →
      (((sec.splitOn '\n').filterMap anchorLine ≠ []) →
          extractSectionProfileData t = dedupEntries ((sec.splitOn '\n').filterMap anchorLine)) ∧
      ((sec.splitOn '\n').filterMap anchorLine = [] →
          extractSectionProfileData t =
            dedupEntries ((execGlobalML spacedRe sec).filterMap mkSpacedEntry)) := by
  intro t sec hsec
  unfold extractSectionProfileData rawSectionEntries
  rw [hsec]
  constructor
  · intro hne
    simp only []
    rw [if_neg (by simpa using hne)]
  · intro heq
    simp only []
    rw [if_pos (by simpa using heq)]

/-- Witness for C6: on `c6text` the anchor pass is non-empty, so the output
is exactly the deduplicated anchor entries. -/
theorem C6_witness :
    extractSectionProfileData c6text =
      dedupEntries ((c6text.splitOn '\n').filterMap anchorLine) :=
  (C6_amended_anchor_first c6text c6text (by decide)).1 (by decide)

/-- Entry with total length 0 for the C7 bug demonstration. -/
def c7zero : Entry :=
  { no := "1", psr := "100", upstreamMH := "10-10-10-100", downstreamMH := "10-10-10-101",
    date := "1/1/2024", material := "VCP", totalLength := .num 0, lengthSurveyed := .num 0 }

/-- Entry with total length 5 for the C7 bug demonstration. -/
def c7five : Entry :=
  { no := "2", psr := "200", upstreamMH := "10-10-10-102", downstreamMH := "10-10-10-103",
    date := "1/1/2024", material := "VCP", totalLength := .num 5, lengthSurveyed := .num 5 }

/-- C7 (code bug): `shortestSegment` uses
`p.totalLength < (min?.totalLength || Infinity)`, and a running minimum of
`0` is falsy, so the comparison is made against `Infinity` and any later
entry displaces the 0-length minimum.  On `[c7zero, c7five]` the code
returns the 5-length entry although the 0-length entry is strictly shorter
(third conjunct); `longestSegment` on the same list is correct. -/
theorem C7_shortest_zero_displaced :
    shortestSegment [c7zero, c7five] = some c7five ∧
    longestSegment [c7zero, c7five] = some c7five ∧
    jsLt c7zero.totalLength c7five.totalLength = true ∧
    c7five ≠ c7zero := by
  refine ⟨by decide, by decide, by decide, by decide⟩

/-- Counterexample to C8: with zero characters of extracted text, `parsePDF`
(the linear parser of `pdfParser.js`) returns a successful result with empty
record lists — it does not fail. -/
theorem C8_counterexample :
    parsePDFFromText [] =
      .success [] { sectionProfile := [], inspectionReports := [],
                    metadata := { totalPSREntries := 0, totalInspectionReports := 0,
                                  totalObservations := 0 } } ∧
    (parsePDFFromText []).isOk = true := by
  refine ⟨by decide, by decide⟩

/-- C8 (amended): on zero extracted text the linear parser (`parsePDF`)
succeeds with empty record lists, while the position-aware parser
(`parsePDFWithPositioning` in `check-position.js`) rejects with the
`pdf2json` error message. -/
theorem C8_amended_empty_text :
    (∀ t : List Char, t.length = 0 →
        parsePDFFromText t =
          .success t { sectionProfile := [], inspectionReports := [],
                       metadata := { totalPSREntries := 0, totalInspectionReports := 0,
                                     totalObservations := 0 } }) ∧
    (∀ (f : List Char → ParsedData) (rawText : List Char), rawText.length = 0 →
        positioningGuard f rawText =
          .failure ("No text extracted from PDF - pdf2json failed")) := by
  constructor
  · intro t ht
    have h0 : t = [] := List.length_eq_zero.mp ht
    subst h0
    decide
  · intro f rawText h
    simp [positioningGuard, h]

/-- Witness for C8: both parts of the amended statement at the empty text. -/
theorem C8_witness :
    parsePDFFromText [] =
      .success [] { sectionProfile := [], inspectionReports := [],
                    metadata := { totalPSREntries := 0, totalInspectionReports := 0,
                                  totalObservations := 0 } } ∧
    positioningGuard
        (fun _ => { sectionProfile := [], inspectionReports := [],
                    metadata := { totalPSREntries := 0, totalInspectionReports := 0,
                                  totalObservations := 0 } }) [] =
      .failure ("No text extracted from PDF - pdf2json failed") :=
  ⟨C8_amended_empty_text.1 [] rfl, C8_amended_empty_text.2 _ [] rfl⟩

/-- C9: every entry emitted by the Section Profile extractor has a non-empty
PSR string — the anchor path pushes only under the `restMatch && psr`
truthiness guard (so a leading digit run of length ≤ 3, which yields a null
PSR, produces no entry), and the spaced path's guard requires a truthy PSR
capture. -/
theorem C9_entries_have_psr :
    ∀ (t : List Char), ∀ e ∈ extractSectionProfileData t, e.psr ≠ "" := by
  intro t e he
  exact mem_raw_psr (mem_dedupAux _ _ he)

/-- Section Profile text for the C9 witness. -/
def c9text : List Char :=
  ("Section Profile\n82797138-33-20-028138-33-20-02711/20/2024VCP61.2061.20").data

/-- The entry extracted from `c9text`. -/
def c9entry : Entry :=
  { no := "82", psr := "797", upstreamMH := "138-33-20-028", downstreamMH := "138-33-20-027",
    date := "11/20/2024", material := "VCP", totalLength := .num (mkRat 612061 10000),
    lengthSurveyed := .num 0 }

/-- Witness for C9: the entry extracted from `c9text` is in the output and
has a non-empty PSR. -/
theorem C9_witness :
    c9entry ∈ extractSectionProfileData c9text ∧ c9entry.psr ≠ "" :=
  ⟨by decide, C9_entries_have_psr c9text c9entry (by decide)⟩

/-- C10: cross-referencing keeps the number and order of reports, changes at
most the `psr` and `pipeMaterial` fields of each report, and leaves a truthy
(present, non-empty) `psr` or `pipeMaterial` unchanged; the Section Profile
entries are only read (the embedding passes them by value and returns only
the report list). -/
theorem C10_crossReference_frame :
    ∀ (es : List Entry) (rs : List Report) (i : Nat) (r r2 : Report),
      rs[i]? = some r → (crossReference es rs)[i]? = some r2 →
      (crossReference es rs).length = rs.length ∧
      r2 = { r with psr := r2.psr, pipeMaterial := r2.pipeMaterial } ∧
      (jsTruthyStr r.psr = true → r2.psr = r.psr) ∧
      (jsTruthyStr r.pipeMaterial = true → r2.pipeMaterial = r.pipeMaterial) := by
  intro es rs i r r2 hr hr2
  have hlen : (crossReference es rs).length = rs.length := by
    simp [crossReference]
  have hr2eq : r2 = crossRefOne es r := by
    rw [crossReference] at hr2
    rw [List.getElem?_map, hr] at hr2
    simpa using hr2.symm
  subst hr2eq
  exact ⟨hlen, crossRefOne_shape es r, fun h => crossRefOne_psr_truthy es r h,
         fun h => crossRefOne_material_truthy es r h⟩

/-- Report with extracted `psr` and `pipeMaterial` for the C10 witness. -/
def c10report : Report :=
  { psr := some "5", pipeMaterial := some "VCP" }

/-- Witness for C10: the frame theorem applied to a singleton report list
whose report already carries a PSR and a material — both survive. -/
theorem C10_witness :
    (crossReference [] [c10report]).length = [c10report].length ∧
    c10report = { c10report with psr := c10report.psr, pipeMaterial := c10report.pipeMaterial } ∧
    (jsTruthyStr c10report.psr = true → c10report.psr = c10report.psr) ∧
    (jsTruthyStr c10report.pipeMaterial = true →
      c10report.pipeMaterial = c10report.pipeMaterial) :=
  C10_crossReference_frame [] [c10report] 0 c10report c10report rfl (by decide)
